import Mathlib

/-!
Shallow embedding of the value-conversion / argument-extraction core of the
`neon` repository (`crates/neon/src/types_impl/extract/mod.rs`).

Modelling conventions:
* A JavaScript engine / execution context is modelled as a pair of the raw
  argument list (`argv`) and an abstract mutable engine state `σ`; every
  conversion is a state transformer on `σ`, which makes observable side
  effects of conversions (getters, allocations, ...) expressible.
* `NeonResult α` is `Except JsException α`: the Rust `Err(Throw)` marker plus
  the pending JavaScript exception are folded into the error channel, so the
  thrown exception's kind and message are visible to theorems.
* The per-type trait implementations (`try_from_js.rs`, `try_into_js.rs`) and
  the `private` module are not part of the provided source; where a claim
  needs them they are modelled from the spec and marked as such.
* The tuple-extraction macros generate, for each arity, the same
  left-to-right body; the embedding captures that uniform body once, as a
  structural recursion over a list of heterogeneous argument slots, so that
  each fixed arity 0..32 is an instance of the same definition.
* Numeric payloads (`f64` values, date milliseconds) are carried as `Int` and
  byte buffers as `List Nat`: the conversions under study only store and
  retrieve these payloads, never compute with them, so the carrier type is
  irrelevant to every claim.
-/

namespace NeonExtract

/-- A dynamic JavaScript value (the referent of a `Handle<JsValue>`). -/
inductive JSValue where
  | undefined
  | null
  | number (n : Int)
  | string (s : String)
  | boolean (b : Bool)
  | date (ms : Int)
  | arrayBuffer (bytes : List Nat)
  | buffer (bytes : List Nat)
deriving DecidableEq, Repr

/-- A pending JavaScript exception; `typeError` is what `throw_type_error`
produces, `genericError` stands for every other kind of runtime failure. -/
inductive JsException where
  | typeError (msg : String)
  | genericError (msg : String)
deriving DecidableEq, Repr

/-- The result type `NeonResult<T>`: `Except.error` means a JavaScript exception is pending
(the Rust `Err(Throw)` together with the exception it left in the engine). -/
abbrev NeonResult (α : Type) : Type := Except JsException α

/-- The static JavaScript value types (`JsNumber`, `JsString`, ...) that can
instantiate the `T: Value` parameter of `TypeExpected<T>`. -/
inductive JsType where
  | anyValue
  | number
  | string
  | boolean
  | date
  | arrayBuffer
  | buffer
deriving DecidableEq, Repr

/-- Modelled from the spec: `Value::name()`, the canonical dynamic-type name
of a JavaScript value type (its defining code is outside the provided
source). All claims depend only on this being a fixed name per type. -/
def JsType.name : JsType → String
  | .anyValue => "any"
  | .number => "number"
  | .string => "string"
  | .boolean => "boolean"
  | .date => "object"
  | .arrayBuffer => "ArrayBuffer"
  | .buffer => "Buffer"

/-- The carrier `TypeExpected<T>`: the generic type-mismatch error carrier. It is a
zero-sized value tagged with the intended value type `T` (Rust's
`PhantomData<T>` field carries no data). -/
structure TypeExpected (T : JsType) : Type where
  intro ::
deriving DecidableEq, Repr

/-- The `fmt::Display` text of `TypeExpected<T>`: `write!(f, "expected {T::name()}")`. -/
def TypeExpected.display {T : JsType} (_ : TypeExpected T) : String :=
  "expected " ++ T.name

/-- The conversion `ResultExt::or_throw` for `Result<T, TypeExpected<U>>`: `Ok` passes
through, `Err(_)` becomes `cx.throw_type_error("expected {U::name()}")`. -/
def or_throw {α : Type} {T : JsType} : Except (TypeExpected T) α → NeonResult α
  | .ok v => .ok v
  | .error _ => .error (.typeError ("expected " ++ T.name))

/-- A `FunctionContext`: the supplied raw arguments plus the abstract engine
state `σ` that conversions may read and mutate. -/
structure Ctx (σ : Type) where
  argv : List JSValue
  state : σ

/-- Modelled from the spec: `cx.argv()` reads exactly `n` raw argument
handles, substituting `undefined` for every position at or beyond the number
of supplied arguments (the context code is outside the provided source). -/
def Ctx.argvN {σ : Type} (cx : Ctx σ) (n : Nat) : List JSValue :=
  (List.range n).map (fun i => cx.argv.getD i JSValue.undefined)

/-- One argument slot of a tuple shape: a native type `α` together with its
`TryFromJs` instance — the mismatch error type `ε` (`TryFromJs::Error`) and
the two trait methods, each a state transformer on the engine state `σ`. -/
structure Slot (σ : Type) : Type 1 where
  α : Type
  ε : Type
  try_from_js : σ → JSValue → σ × NeonResult (Except ε α)
  from_js : σ → JSValue → σ × NeonResult α

/-- The native tuple type assembled from a list of slots. -/
def Tup {σ : Type} : List (Slot σ) → Type
  | [] => PUnit
  | s :: ss => s.α × Tup ss

/-- Body of the macro-generated `from_args`: apply each slot's `from_js` to
its raw argument strictly left to right, short-circuiting on the first
pending exception (`?`), and assemble the tuple. -/
def from_args_core {σ : Type} : (ss : List (Slot σ)) → σ → List JSValue →
    σ × NeonResult (Tup ss)
  | [], st, _ => (st, .ok PUnit.unit)
  | s :: ss, st, vs =>
    match s.from_js st (vs.headD JSValue.undefined) with
    | (st1, .error e) => (st1, .error e)
    | (st1, .ok a) =>
      match from_args_core ss st1 vs.tail with
      | (st2, .error e) => (st2, .error e)
      | (st2, .ok t) => (st2, .ok (a, t))

/-- Body of the macro-generated `from_args_opt`: apply each slot's
`try_from_js` left to right; `?` propagates a pending exception, while a
typed mismatch (`Err(_)`) makes the whole extraction `return Ok(None)`. -/
def from_args_opt_core {σ : Type} : (ss : List (Slot σ)) → σ → List JSValue →
    σ × NeonResult (Option (Tup ss))
  | [], st, _ => (st, .ok (some PUnit.unit))
  | s :: ss, st, vs =>
    match s.try_from_js st (vs.headD JSValue.undefined) with
    | (st1, .error e) => (st1, .error e)
    | (st1, .ok (.error _)) => (st1, .ok none)
    | (st1, .ok (.ok a)) =>
      match from_args_opt_core ss st1 vs.tail with
      | (st2, .error e) => (st2, .error e)
      | (st2, .ok none) => (st2, .ok none)
      | (st2, .ok (some t)) => (st2, .ok (some (a, t)))

/-- The method `FromArgsInternal::from_args` for the tuple shape `ss`: read exactly
`ss.length` raw arguments from the context, then run the strict conversions. -/
def from_args {σ : Type} (ss : List (Slot σ)) (cx : Ctx σ) :
    σ × NeonResult (Tup ss) :=
  from_args_core ss cx.state (cx.argvN ss.length)

/-- The method `FromArgsInternal::from_args_opt` for the tuple shape `ss`. -/
def from_args_opt {σ : Type} (ss : List (Slot σ)) (cx : Ctx σ) :
    σ × NeonResult (Option (Tup ss)) :=
  from_args_opt_core ss cx.state (cx.argvN ss.length)

/-- The single-argument convenience adapter
(`impl FromArgsInternal for T where T: TryFromJs`): `from_args` on the
one-element tuple, projecting out the value (`let (v,) = ...?; Ok(v)`). -/
def from_args_single {σ : Type} (s : Slot σ) (cx : Ctx σ) :
    σ × NeonResult s.α :=
  match from_args [s] cx with
  | (st, .error e) => (st, .error e)
  | (st, .ok t) => (st, .ok t.1)

/-- The single-argument convenience adapter for the probing form
(`if let Some((v,)) = ...? { Ok(Some(v)) } else { Ok(None) }`). -/
def from_args_opt_single {σ : Type} (s : Slot σ) (cx : Ctx σ) :
    σ × NeonResult (Option s.α) :=
  match from_args_opt [s] cx with
  | (st, .error e) => (st, .error e)
  | (st, .ok none) => (st, .ok none)
  | (st, .ok (some t)) => (st, .ok (some t.1))

/-- Modelled from the spec: the derived strict form of a conversion whose
mismatch error is `TypeExpected<T>` — run the probe, propagate a pending
exception, and escalate a mismatch through `or_throw`
(`Self::try_from_js(cx, v)?.or_throw(cx)`); the per-type instance code is
outside the provided source. -/
def from_js_of_probe {σ α : Type} (T : JsType)
    (probe : σ → JSValue → σ × NeonResult (Except (TypeExpected T) α)) :
    σ → JSValue → σ × NeonResult α :=
  fun st v =>
    match probe st v with
    | (st1, .error e) => (st1, .error e)
    | (st1, .ok r) => (st1, or_throw r)

/-- The design rule of the spec for a slot: its strict `from_js` equals its
probing `try_from_js` followed by escalation of the mismatch branch through
the exception constructor `f`. -/
def Slot.escalates {σ : Type} (s : Slot σ) (f : s.ε → JsException) : Prop :=
  ∀ st v, s.from_js st v =
    (match s.try_from_js st v with
     | (st1, .error e) => (st1, .error e)
     | (st1, .ok (.ok a)) => (st1, .ok a)
     | (st1, .ok (.error err)) => (st1, .error (f err)))

/-- Every slot's probing conversion succeeds on its raw argument, each run
from the state the previous slot left behind. -/
def allProbesOk {σ : Type} : List (Slot σ) → σ → List JSValue → Prop
  | [], _, _ => True
  | s :: ss, st, vs =>
    ∃ st1 a, s.try_from_js st (vs.headD JSValue.undefined) = (st1, .ok (.ok a)) ∧
      allProbesOk ss st1 vs.tail

/-- Modelled from the spec: the `TryFromJs` instance for `Option<T>` (its
code is outside the provided source) — dynamic `null` and `undefined` match
with result `None`; any other value delegates to `T`'s probe and wraps the
matched value in `Some`. -/
def option_try_from_js {σ α ε : Type}
    (probe : σ → JSValue → σ × NeonResult (Except ε α)) (st : σ) (v : JSValue) :
    σ × NeonResult (Except ε (Option α)) :=
  if v = JSValue.null ∨ v = JSValue.undefined then
    (st, .ok (.ok none))
  else
    match probe st v with
    | (st1, r) => (st1, r.map (Except.map some))

/-- The `Date` disambiguating wrapper (`pub struct Date(pub f64)`). -/
structure Date where
  ms : Int
deriving DecidableEq, Repr

/-- The `ArrayBuffer` disambiguating wrapper (`pub struct ArrayBuffer(pub Vec<u8>)`). -/
structure ArrayBuffer where
  bytes : List Nat
deriving DecidableEq, Repr

/-- The `Buffer` disambiguating wrapper (`pub struct Buffer(pub Vec<u8>)`). -/
structure Buffer where
  bytes : List Nat
deriving DecidableEq, Repr

/-- Modelled from the spec: `TryIntoJs` for `f64` produces a dynamic number. -/
def f64_try_into_js (n : Int) : JSValue := .number n

/-- Modelled from the spec: the probe of `TryFromJs` for `f64` — matches a
dynamic number, mismatches on every other shape. -/
def f64_try_from_js (v : JSValue) : Except (TypeExpected .number) Int :=
  match v with
  | .number n => .ok n
  | _ => .error .intro

/-- Modelled from the spec: `TryIntoJs` for `String`. -/
def string_try_into_js (s : String) : JSValue := .string s

/-- Modelled from the spec: the probe of `TryFromJs` for `String`. -/
def string_try_from_js (v : JSValue) : Except (TypeExpected .string) String :=
  match v with
  | .string s => .ok s
  | _ => .error .intro

/-- Modelled from the spec: `TryIntoJs` for `bool`. -/
def bool_try_into_js (b : Bool) : JSValue := .boolean b

/-- Modelled from the spec: the probe of `TryFromJs` for `bool`. -/
def bool_try_from_js (v : JSValue) : Except (TypeExpected .boolean) Bool :=
  match v with
  | .boolean b => .ok b
  | _ => .error .intro

/-- Modelled from the spec: `TryIntoJs` for the `Date` wrapper produces a
dynamic date carrying the wrapper's millisecond payload. -/
def date_try_into_js (d : Date) : JSValue := .date d.ms

/-- Modelled from the spec: the probe of `TryFromJs` for the `Date` wrapper —
matches only a dynamic date, not a plain number. -/
def date_try_from_js (v : JSValue) : Except (TypeExpected .date) Date :=
  match v with
  | .date ms => .ok ⟨ms⟩
  | _ => .error .intro

/-- Modelled from the spec: `TryIntoJs` for the `ArrayBuffer` wrapper. -/
def arrayBuffer_try_into_js (b : ArrayBuffer) : JSValue := .arrayBuffer b.bytes

/-- Modelled from the spec: the probe of `TryFromJs` for the `ArrayBuffer` wrapper. -/
def arrayBuffer_try_from_js (v : JSValue) :
    Except (TypeExpected .arrayBuffer) ArrayBuffer :=
  match v with
  | .arrayBuffer bs => .ok ⟨bs⟩
  | _ => .error .intro

/-- Modelled from the spec: `TryIntoJs` for the `Buffer` wrapper. -/
def buffer_try_into_js (b : Buffer) : JSValue := .buffer b.bytes

/-- Modelled from the spec: the probe of `TryFromJs` for the `Buffer` wrapper. -/
def buffer_try_from_js (v : JSValue) : Except (TypeExpected .buffer) Buffer :=
  match v with
  | .buffer bs => .ok ⟨bs⟩
  | _ => .error .intro

/-- A concrete probe that always reports a shape mismatch, used to evaluate
theorems at concrete inputs. -/
def probeMismatchC1 : Nat → JSValue → Nat × NeonResult (Except (TypeExpected .number) Int) :=
  fun st _ => (st, .ok (.error .intro))

/-- A concrete probe that always matches, used to evaluate theorems at
concrete inputs. -/
def probeOkW : Nat → JSValue → Nat × NeonResult (Except (TypeExpected .number) Int) :=
  fun st v => (st + 1, .ok (.ok (match v with | .number n => n | _ => 0)))

/-- A concrete slot whose probe always matches; its engine-state increment
records that its conversion ran. -/
def slotOkW : Slot Nat where
  α := Unit
  ε := Unit
  try_from_js := fun st _ => (st + 1, .ok (.ok ()))
  from_js := fun st _ => (st + 1, .ok ())

/-- A concrete slot whose probe always reports a shape mismatch; its strict
form escalates the mismatch to a thrown type-error. -/
def slotMismatchW : Slot Nat where
  α := Unit
  ε := Unit
  try_from_js := fun st _ => (st + 1, .ok (.error ()))
  from_js := fun st _ => (st + 1, .error (.typeError "expected unit"))

/-- A concrete slot whose probe itself fails at the runtime level. -/
def slotThrowW : Slot Nat where
  α := Unit
  ε := Unit
  try_from_js := fun st _ => (st + 1, .error (.genericError "getter threw"))
  from_js := fun st _ => (st + 1, .error (.genericError "getter threw"))

/-- A concrete call context with no supplied arguments. -/
def cxW : Ctx Nat := ⟨[], 0⟩

/-- A concrete call context with one explicitly supplied `undefined`. -/
def cxW' : Ctx Nat := ⟨[JSValue.undefined], 0⟩

theorem drop_tail_eq {β : Type} (vs : List β) (n : Nat) :
    vs.tail.drop n = vs.drop (n + 1) := by
  cases vs with
  | nil => simp
  | cons h t => rfl

/-- Claim C1: for every native type whose conversion instance follows the
design rule, the strict form `from_js` is equivalent to running the probing
form `try_from_js` and then escalating: same success value when the probe
succeeds, same propagated pending exception when the probe fails at the
runtime level, and a thrown type-error (a runtime-level failure) in place of
a typed shape-mismatch error. -/
theorem from_js_probe_escalation {σ α : Type} (T : JsType)
    (probe : σ → JSValue → σ × NeonResult (Except (TypeExpected T) α))
    (st st1 : σ) (v : JSValue) :
    (∀ a, probe st v = (st1, .ok (.ok a)) →
       from_js_of_probe T probe st v = (st1, .ok a)) ∧
    (∀ e, probe st v = (st1, .error e) →
       from_js_of_probe T probe st v = (st1, .error e)) ∧
    (∀ err, probe st v = (st1, .ok (.error err)) →
       from_js_of_probe T probe st v =
         (st1, .error (.typeError ("expected " ++ T.name)))) := by
  refine ⟨fun a h => ?_, fun e h => ?_, fun err h => ?_⟩ <;>
    simp [from_js_of_probe, h, or_throw]

/-- Witness for C1: a probe reporting a mismatch on `null` is escalated to a
thrown type-error naming the expected type. -/
theorem from_js_probe_escalation_witness :
    from_js_of_probe JsType.number probeMismatchC1 0 JSValue.null =
      (0, Except.error (JsException.typeError ("expected " ++ JsType.name JsType.number))) :=
  (from_js_probe_escalation JsType.number probeMismatchC1 0 0 JSValue.null).2.2
    TypeExpected.intro rfl

/-- Claim C5: `TypeExpected<T>` displays the message `expected <T's name>`,
and `or_throw` leaves a success unchanged and, on error, throws a type-error
whose message is exactly the displayed text. -/
theorem typeExpected_display_or_throw (T : JsType) :
    (∀ e : TypeExpected T, e.display = "expected " ++ T.name) ∧
    (∀ (α : Type) (v : α),
       or_throw (Except.ok v : Except (TypeExpected T) α) = .ok v) ∧
    (∀ (α : Type) (e : TypeExpected T),
       or_throw (Except.error e : Except (TypeExpected T) α) =
         .error (.typeError e.display)) :=
  ⟨fun _ => rfl, fun _ _ => rfl, fun _ _ => rfl⟩

/-- Claim C6: probing a dynamic value against `Option<T>` yields `None` on
`null` and `undefined` regardless of `T`, and on any other shape is exactly
`T`'s own probing result with the matched value wrapped in `Some`. -/
theorem option_probe_nullish_and_delegate {σ α ε : Type}
    (probe : σ → JSValue → σ × NeonResult (Except ε α)) (st : σ) (v : JSValue) :
    (v = JSValue.null ∨ v = JSValue.undefined →
       option_try_from_js probe st v = (st, .ok (.ok none))) ∧
    (v ≠ JSValue.null → v ≠ JSValue.undefined →
       option_try_from_js probe st v =
         ((probe st v).1, (probe st v).2.map (Except.map some))) := by
  constructor
  · intro h
    simp [option_try_from_js, h]
  · intro h1 h2
    simp [option_try_from_js, h1, h2]

/-- Witness for C6: `null` probed against `Option` yields `None`, and a
number delegates to the inner probe wrapped in `Some`. -/
theorem option_probe_nullish_and_delegate_witness :
    option_try_from_js probeOkW 0 JSValue.null = (0, .ok (.ok none)) ∧
    option_try_from_js probeOkW 0 (JSValue.number 5) =
      ((probeOkW 0 (JSValue.number 5)).1,
        (probeOkW 0 (JSValue.number 5)).2.map (Except.map some)) :=
  ⟨(option_probe_nullish_and_delegate probeOkW 0 JSValue.null).1 (Or.inl rfl),
   (option_probe_nullish_and_delegate probeOkW 0 (JSValue.number 5)).2
     (by decide) (by decide)⟩

/-- Claim C7: for every modelled primitive and wrapper native type, converting
a native value to a dynamic value and probing it back for the same type
succeeds and yields a value equal to the original. -/
theorem round_trip (n : Int) (s : String) (b : Bool) (d : Date)
    (ab : ArrayBuffer) (bf : Buffer) :
    f64_try_from_js (f64_try_into_js n) = .ok n ∧
    string_try_from_js (string_try_into_js s) = .ok s ∧
    bool_try_from_js (bool_try_into_js b) = .ok b ∧
    date_try_from_js (date_try_into_js d) = .ok d ∧
    arrayBuffer_try_from_js (arrayBuffer_try_into_js ab) = .ok ab ∧
    buffer_try_from_js (buffer_try_into_js bf) = .ok bf :=
  ⟨rfl, rfl, rfl, rfl, rfl, rfl⟩

/-- Claim C9: extracting a bare type behaves exactly like extracting the
one-element tuple: the adapter's result is the one-tuple result with the
single component projected out, so successes, no-matches and pending
exceptions correspond exactly. -/
theorem single_eq_one_tuple {σ : Type} (s : Slot σ) (cx : Ctx σ) :
    (from_args_single s cx =
      ((from_args [s] cx).1, (from_args [s] cx).2.map Prod.fst)) ∧
    (from_args_opt_single s cx =
      ((from_args_opt [s] cx).1,
        (from_args_opt [s] cx).2.map (Option.map Prod.fst))) ∧
    (∀ st v, from_args_single s cx = (st, .ok v) ↔
       from_args [s] cx = (st, .ok (v, PUnit.unit))) ∧
    (∀ st e, from_args_single s cx = (st, .error e) ↔
       from_args [s] cx = (st, .error e)) ∧
    (∀ st v, from_args_opt_single s cx = (st, .ok (some v)) ↔
       from_args_opt [s] cx = (st, .ok (some (v, PUnit.unit)))) ∧
    (∀ st, from_args_opt_single s cx = (st, .ok none) ↔
       from_args_opt [s] cx = (st, .ok none)) ∧
    (∀ st e, from_args_opt_single s cx = (st, .error e) ↔
       from_args_opt [s] cx = (st, .error e)) := by
  rcases h : from_args [s] cx with ⟨st0, r⟩
  rcases h2 : from_args_opt [s] cx with ⟨st2, r2⟩
  refine ⟨?_, ?_, ?_, ?_, ?_, ?_, ?_⟩
  · cases r <;> simp [from_args_single, h, Except.map]
  · cases r2 with
    | error e => simp [from_args_opt_single, h2, Except.map]
    | ok o => cases o <;> simp [from_args_opt_single, h2, Except.map]
  · intro st v
    cases r with
    | error e => simp [from_args_single, h]
    | ok t =>
      simp only [from_args_single, h, Prod.mk.injEq, Except.ok.injEq]
      constructor
      · rintro ⟨hst, hv⟩
        subst hv
        exact ⟨hst, rfl⟩
      · rintro ⟨hst, hv⟩
        exact ⟨hst, by rw [hv]⟩
  · intro st e
    cases r <;> simp [from_args_single, h]
  · intro st v
    cases r2 with
    | error e => simp [from_args_opt_single, h2]
    | ok o =>
      cases o with
      | none => simp [from_args_opt_single, h2]
      | some t =>
        simp only [from_args_opt_single, h2, Prod.mk.injEq, Except.ok.injEq,
          Option.some.injEq]
        constructor
        · rintro ⟨hst, hv⟩
          subst hv
          exact ⟨hst, rfl⟩
        · rintro ⟨hst, hv⟩
          exact ⟨hst, by rw [hv]⟩
  · intro st
    cases r2 with
    | error e => simp [from_args_opt_single, h2]
    | ok o => cases o <;> simp [from_args_opt_single, h2]
  · intro st e
    cases r2 with
    | error e2 => simp [from_args_opt_single, h2]
    | ok o => cases o <;> simp [from_args_opt_single, h2]

theorem from_args_core_append_error {σ : Type} (ss₂ : List (Slot σ)) :
    ∀ (ss₁ : List (Slot σ)) (st st1 : σ) (vs : List JSValue) (e : JsException),
      from_args_core ss₁ st vs = (st1, Except.error e) →
      from_args_core (ss₁ ++ ss₂) st vs = (st1, Except.error e) := by
  intro ss₁
  induction ss₁ with
  | nil =>
    intro st st1 vs e h
    simp [from_args_core] at h
  | cons s rest ih =>
    intro st st1 vs e h
    simp only [from_args_core, List.cons_append] at h ⊢
    rcases hf : s.from_js st (vs.headD JSValue.undefined) with ⟨sta, ra⟩
    rw [hf] at h
    cases ra with
    | error e2 => simpa using h
    | ok a =>
      dsimp only at h ⊢
      rcases hr : from_args_core rest sta vs.tail with ⟨stb, rb⟩
      rw [hr] at h
      cases rb with
      | error e2 =>
        simp only [Prod.mk.injEq, Except.error.injEq] at h
        obtain ⟨rfl, rfl⟩ := h
        simp [ih sta stb vs.tail e2 hr]
      | ok t => simp at h

theorem from_args_opt_core_append_error {σ : Type} (ss₂ : List (Slot σ)) :
    ∀ (ss₁ : List (Slot σ)) (st st1 : σ) (vs : List JSValue) (e : JsException),
      from_args_opt_core ss₁ st vs = (st1, Except.error e) →
      from_args_opt_core (ss₁ ++ ss₂) st vs = (st1, Except.error e) := by
  intro ss₁
  induction ss₁ with
  | nil =>
    intro st st1 vs e h
    simp [from_args_opt_core] at h
  | cons s rest ih =>
    intro st st1 vs e h
    simp only [from_args_opt_core, List.cons_append] at h ⊢
    rcases hf : s.try_from_js st (vs.headD JSValue.undefined) with ⟨sta, ra⟩
    rw [hf] at h
    match ra with
    | .error e2 => simpa using h
    | .ok (.error em) => simp at h
    | .ok (.ok a) =>
      dsimp only at h ⊢
      rcases hr : from_args_opt_core rest sta vs.tail with ⟨stb, rb⟩
      rw [hr] at h
      match rb with
      | .error e2 =>
        simp only [Prod.mk.injEq, Except.error.injEq] at h
        obtain ⟨rfl, rfl⟩ := h
        simp [ih sta stb vs.tail e2 hr]
      | .ok none => simp at h
      | .ok (some t) => simp at h

theorem from_args_opt_core_append_none {σ : Type} (ss₂ : List (Slot σ)) :
    ∀ (ss₁ : List (Slot σ)) (st st1 : σ) (vs : List JSValue),
      from_args_opt_core ss₁ st vs = (st1, Except.ok none) →
      from_args_opt_core (ss₁ ++ ss₂) st vs = (st1, Except.ok none) := by
  intro ss₁
  induction ss₁ with
  | nil =>
    intro st st1 vs h
    simp [from_args_opt_core] at h
  | cons s rest ih =>
    intro st st1 vs h
    simp only [from_args_opt_core, List.cons_append] at h ⊢
    rcases hf : s.try_from_js st (vs.headD JSValue.undefined) with ⟨sta, ra⟩
    rw [hf] at h
    match ra with
    | .error e2 => simp at h
    | .ok (.error em) => simpa using h
    | .ok (.ok a) =>
      dsimp only at h ⊢
      rcases hr : from_args_opt_core rest sta vs.tail with ⟨stb, rb⟩
      rw [hr] at h
      match rb with
      | .error e2 => simp at h
      | .ok none =>
        simp only [Prod.mk.injEq, Except.ok.injEq] at h
        obtain ⟨rfl, hne⟩ := h
        simp [ih sta stb vs.tail hr]
      | .ok (some t) => simp at h

theorem opt_core_some_then_mismatch {σ : Type} (s : Slot σ) (ss₂ : List (Slot σ)) :
    ∀ (ss₁ : List (Slot σ)) (st st1 st2 : σ) (vs : List JSValue) (t1 : Tup ss₁) (e : s.ε),
      from_args_opt_core ss₁ st vs = (st1, Except.ok (some t1)) →
      s.try_from_js st1 ((vs.drop ss₁.length).headD JSValue.undefined) =
        (st2, Except.ok (Except.error e)) →
      from_args_opt_core (ss₁ ++ s :: ss₂) st vs = (st2, Except.ok none) := by
  intro ss₁
  induction ss₁ with
  | nil =>
    intro st st1 st2 vs t1 e h hs
    simp only [from_args_opt_core, Prod.mk.injEq, Except.ok.injEq,
      Option.some.injEq] at h
    obtain ⟨rfl, -⟩ := h
    simp only [List.length_nil, List.drop_zero] at hs
    simp only [List.nil_append, from_args_opt_core]
    rw [hs]
  | cons sh rest ih =>
    intro st st1 st2 vs t1 e h hs
    simp only [from_args_opt_core, List.cons_append] at h ⊢
    rcases hf : sh.try_from_js st (vs.headD JSValue.undefined) with ⟨sta, ra⟩
    rw [hf] at h
    match ra with
    | .error e2 => simp at h
    | .ok (.error em) => simp at h
    | .ok (.ok a) =>
      dsimp only at h ⊢
      rcases hr : from_args_opt_core rest sta vs.tail with ⟨stb, rb⟩
      rw [hr] at h
      match rb with
      | .error e2 => simp at h
      | .ok none => simp at h
      | .ok (some trest) =>
        simp only [Prod.mk.injEq, Except.ok.injEq, Option.some.injEq] at h
        obtain ⟨rfl, -⟩ := h
        rw [List.length_cons, ← drop_tail_eq] at hs
        simp [ih sta stb st2 vs.tail trest e hr hs]

theorem opt_core_some_then_throw {σ : Type} (s : Slot σ) (ss₂ : List (Slot σ)) :
    ∀ (ss₁ : List (Slot σ)) (st st1 st2 : σ) (vs : List JSValue) (t1 : Tup ss₁)
      (exc : JsException),
      from_args_opt_core ss₁ st vs = (st1, Except.ok (some t1)) →
      s.try_from_js st1 ((vs.drop ss₁.length).headD JSValue.undefined) =
        (st2, Except.error exc) →
      from_args_opt_core (ss₁ ++ s :: ss₂) st vs = (st2, Except.error exc) := by
  intro ss₁
  induction ss₁ with
  | nil =>
    intro st st1 st2 vs t1 exc h hs
    simp only [from_args_opt_core, Prod.mk.injEq, Except.ok.injEq,
      Option.some.injEq] at h
    obtain ⟨rfl, -⟩ := h
    simp only [List.length_nil, List.drop_zero] at hs
    simp only [List.nil_append, from_args_opt_core]
    rw [hs]
  | cons sh rest ih =>
    intro st st1 st2 vs t1 exc h hs
    simp only [from_args_opt_core, List.cons_append] at h ⊢
    rcases hf : sh.try_from_js st (vs.headD JSValue.undefined) with ⟨sta, ra⟩
    rw [hf] at h
    match ra with
    | .error e2 => simp at h
    | .ok (.error em) => simp at h
    | .ok (.ok a) =>
      dsimp only at h ⊢
      rcases hr : from_args_opt_core rest sta vs.tail with ⟨stb, rb⟩
      rw [hr] at h
      match rb with
      | .error e2 => simp at h
      | .ok none => simp at h
      | .ok (some trest) =>
        simp only [Prod.mk.injEq, Except.ok.injEq, Option.some.injEq] at h
        obtain ⟨rfl, -⟩ := h
        rw [List.length_cons, ← drop_tail_eq] at hs
        simp [ih sta stb st2 vs.tail trest exc hr hs]

theorem opt_core_some_all {σ : Type} :
    ∀ (ss : List (Slot σ)) (st st1 : σ) (vs : List JSValue) (t : Tup ss),
      from_args_opt_core ss st vs = (st1, Except.ok (some t)) →
      allProbesOk ss st vs ∧
      ((∀ s ∈ ss, ∃ f : s.ε → JsException, s.escalates f) →
        from_args_core ss st vs = (st1, Except.ok t)) := by
  intro ss
  induction ss with
  | nil =>
    intro st st1 vs t h
    simp only [from_args_opt_core, Prod.mk.injEq, Except.ok.injEq,
      Option.some.injEq] at h
    obtain ⟨rfl, ht⟩ := h
    exact ⟨trivial, fun _ => by simp [from_args_core, ht]⟩
  | cons s rest ih =>
    intro st st1 vs t h
    simp only [from_args_opt_core] at h
    rcases hf : s.try_from_js st (vs.headD JSValue.undefined) with ⟨sta, ra⟩
    rw [hf] at h
    match ra with
    | .error e2 => simp at h
    | .ok (.error em) => simp at h
    | .ok (.ok a) =>
      dsimp only at h
      rcases hr : from_args_opt_core rest sta vs.tail with ⟨stb, rb⟩
      rw [hr] at h
      match rb with
      | .error e2 => simp at h
      | .ok none => simp at h
      | .ok (some trest) =>
        simp only [Prod.mk.injEq, Except.ok.injEq, Option.some.injEq] at h
        obtain ⟨rfl, ht⟩ := h
        obtain ⟨hall, hstrict⟩ := ih sta stb vs.tail trest hr
        constructor
        · exact ⟨sta, a, hf, hall⟩
        · intro hesc
          obtain ⟨f, hsf⟩ := hesc s (List.mem_cons_self s rest)
          have hrest := hstrict (fun s2 hs2 => hesc s2 (List.mem_cons_of_mem s hs2))
          simp only [from_args_core]
          rw [hsf st (vs.headD JSValue.undefined), hf]
          dsimp only
          rw [hrest]
          dsimp only
          rw [← ht]

theorem argvN_length {σ : Type} (cx : Ctx σ) (n : Nat) :
    (cx.argvN n).length = n := by
  simp [Ctx.argvN]

theorem argvN_getD {σ : Type} (cx : Ctx σ) (n i : Nat) :
    (cx.argvN n).getD i JSValue.undefined =
      if i < n then cx.argv.getD i JSValue.undefined else JSValue.undefined := by
  simp only [Ctx.argvN, List.getD_eq_getElem?_getD, List.getElem?_map]
  by_cases h : i < n
  · simp [List.getElem?_range, h]
  · rw [List.getElem?_eq_none (by simpa using Nat.le_of_not_lt h)]
    simp [h]

theorem argvN_oob {σ : Type} (cx : Ctx σ) (n i : Nat)
    (hi : cx.argv.length ≤ i) :
    (cx.argvN n).getD i JSValue.undefined = JSValue.undefined := by
  rw [argvN_getD]
  by_cases h : i < n
  · rw [if_pos h]
    exact List.getD_eq_default _ _ hi
  · rw [if_neg h]

/-- Claim C2: on a tuple shape whose earlier slots all probe successfully, a
shape mismatch reported by the next slot's probing conversion makes the whole
probing extraction yield a no-match (`Ok(None)`), not an exception, while a
runtime-level failure from that slot's probing conversion is propagated
immediately and is never converted into a no-match. -/
theorem from_args_opt_first_failure {σ : Type} (ss₁ : List (Slot σ)) (s : Slot σ)
    (ss₂ : List (Slot σ)) (cx : Ctx σ) (st1 : σ) (t1 : Tup ss₁)
    (hpre : from_args_opt_core ss₁ cx.state (cx.argvN (ss₁ ++ s :: ss₂).length) =
      (st1, Except.ok (some t1))) :
    (∀ st2 e, s.try_from_js st1
        (((cx.argvN (ss₁ ++ s :: ss₂).length).drop ss₁.length).headD JSValue.undefined) =
        (st2, Except.ok (Except.error e)) →
       from_args_opt (ss₁ ++ s :: ss₂) cx = (st2, Except.ok none)) ∧
    (∀ st2 exc, s.try_from_js st1
        (((cx.argvN (ss₁ ++ s :: ss₂).length).drop ss₁.length).headD JSValue.undefined) =
        (st2, Except.error exc) →
       from_args_opt (ss₁ ++ s :: ss₂) cx = (st2, Except.error exc)) :=
  ⟨fun st2 e hs =>
     opt_core_some_then_mismatch s ss₂ ss₁ cx.state st1 st2 _ t1 e hpre hs,
   fun st2 exc hs =>
     opt_core_some_then_throw s ss₂ ss₁ cx.state st1 st2 _ t1 exc hpre hs⟩

/-- Witness for C2: with a matching first slot, a mismatching second slot and
a throwing third slot, the probing extraction yields a no-match after running
only the first two slots (final engine state 2, not 3). -/
theorem from_args_opt_first_failure_witness :
    from_args_opt [slotOkW, slotMismatchW, slotThrowW] cxW = (2, Except.ok none) :=
  (from_args_opt_first_failure [slotOkW] slotMismatchW [slotThrowW] cxW 1
    ((), PUnit.unit) rfl).1 2 () rfl

/-- Claim C3: both extraction forms apply the per-slot conversions strictly
left to right and short-circuit on the first failure: if running the prefix
of slots already fails (pending exception, or no-match for the probing form)
in some engine state, the full extraction on the extended slot list returns
that same failure and that same engine state, so the conversions of the
remaining slots are never invoked and none of their side effects occur. -/
theorem left_to_right_short_circuit {σ : Type} (ss₁ ss₂ : List (Slot σ))
    (cx : Ctx σ) (st1 : σ) :
    (∀ e, from_args_core ss₁ cx.state (cx.argvN (ss₁ ++ ss₂).length) =
        (st1, Except.error e) →
       from_args (ss₁ ++ ss₂) cx = (st1, Except.error e)) ∧
    (∀ e, from_args_opt_core ss₁ cx.state (cx.argvN (ss₁ ++ ss₂).length) =
        (st1, Except.error e) →
       from_args_opt (ss₁ ++ ss₂) cx = (st1, Except.error e)) ∧
    (from_args_opt_core ss₁ cx.state (cx.argvN (ss₁ ++ ss₂).length) =
        (st1, Except.ok none) →
       from_args_opt (ss₁ ++ ss₂) cx = (st1, Except.ok none)) :=
  ⟨fun e h => from_args_core_append_error ss₂ ss₁ cx.state st1 _ e h,
   fun e h => from_args_opt_core_append_error ss₂ ss₁ cx.state st1 _ e h,
   fun h => from_args_opt_core_append_none ss₂ ss₁ cx.state st1 _ h⟩

/-- Witness for C3: when the first slot's strict conversion throws, the
second slot's conversion never runs (final engine state 1, not 2). -/
theorem left_to_right_short_circuit_witness :
    from_args [slotMismatchW, slotOkW] cxW =
      (1, Except.error (JsException.typeError "expected unit")) :=
  (left_to_right_short_circuit [slotMismatchW] [slotOkW] cxW 1).1
    (JsException.typeError "expected unit") rfl

/-- Claim C4: the tuple extraction family covers every fixed arity 0 through
32 by instantiating one generic scheme: the zero-arity extraction always
succeeds regardless of context contents, and a thirty-two-arity extraction
reads exactly 32 raw argument slots, substituting `undefined` for every
position the caller did not supply. -/
theorem arity_family {σ : Type} (cx : Ctx σ) (ss : List (Slot σ))
    (h32 : ss.length = 32) :
    from_args ([] : List (Slot σ)) cx = (cx.state, Except.ok PUnit.unit) ∧
    from_args_opt ([] : List (Slot σ)) cx = (cx.state, Except.ok (some PUnit.unit)) ∧
    from_args ss cx = from_args_core ss cx.state (cx.argvN 32) ∧
    from_args_opt ss cx = from_args_opt_core ss cx.state (cx.argvN 32) ∧
    (cx.argvN 32).length = 32 ∧
    (∀ i, cx.argv.length ≤ i →
       (cx.argvN 32).getD i JSValue.undefined = JSValue.undefined) := by
  refine ⟨rfl, rfl, ?_, ?_, argvN_length cx 32, fun i hi => argvN_oob cx 32 i hi⟩
  · rw [from_args, h32]
  · rw [from_args_opt, h32]

/-- Witness for C4: arity 0 succeeds on an empty context, and an arity-32
shape reads a 32-slot argument window. -/
theorem arity_family_witness :
    from_args ([] : List (Slot Nat)) cxW = (cxW.state, Except.ok PUnit.unit) ∧
    from_args (List.replicate 32 slotOkW) cxW =
      from_args_core (List.replicate 32 slotOkW) cxW.state (cxW.argvN 32) := by
  have h := arity_family cxW (List.replicate 32 slotOkW) (by simp)
  exact ⟨h.1, h.2.2.1⟩

/-- Claim C8: both extraction forms read exactly as many raw argument handles
as the tuple's arity: the argument window has length equal to the arity,
every in-range position reads the supplied argument, every position at or
beyond the supplied count reads `undefined` rather than failing, and both
forms depend only on the engine state and that fixed-size window. -/
theorem reads_exactly_arity {σ : Type} (ss : List (Slot σ)) (cx cx' : Ctx σ) :
    (cx.argvN ss.length).length = ss.length ∧
    (∀ i, i < ss.length →
       (cx.argvN ss.length).getD i JSValue.undefined =
         cx.argv.getD i JSValue.undefined) ∧
    (∀ i, cx.argv.length ≤ i →
       (cx.argvN ss.length).getD i JSValue.undefined = JSValue.undefined) ∧
    (cx.state = cx'.state → cx.argvN ss.length = cx'.argvN ss.length →
       from_args ss cx = from_args ss cx' ∧
       from_args_opt ss cx = from_args_opt ss cx') := by
  refine ⟨argvN_length cx ss.length, fun i hi => ?_,
    fun i hi => argvN_oob cx ss.length i hi, fun h1 h2 => ?_⟩
  · rw [argvN_getD, if_pos hi]
  · constructor
    · rw [from_args, from_args, h1, h2]
    · rw [from_args_opt, from_args_opt, h1, h2]

/-- Witness for C8: a context with no arguments and a context with one
explicit `undefined` present the same one-slot window, so extraction cannot
tell them apart. -/
theorem reads_exactly_arity_witness :
    from_args [slotOkW] cxW = from_args [slotOkW] cxW' ∧
    from_args_opt [slotOkW] cxW = from_args_opt [slotOkW] cxW' :=
  (reads_exactly_arity [slotOkW] cxW cxW').2.2.2 rfl rfl

/-- Claim C10: if the probing extraction reports a match, then every slot's
probing conversion succeeded on its raw argument, and — assuming every slot
follows the design rule that its strict conversion is its probing conversion
followed by escalation — the required extraction on the same context returns
the identical tuple and final state. -/
theorem opt_match_implies_strict {σ : Type} (ss : List (Slot σ)) (cx : Ctx σ)
    (st1 : σ) (t : Tup ss)
    (h : from_args_opt ss cx = (st1, Except.ok (some t))) :
    allProbesOk ss cx.state (cx.argvN ss.length) ∧
    ((∀ s ∈ ss, ∃ f : s.ε → JsException, s.escalates f) →
       from_args ss cx = (st1, Except.ok t)) :=
  opt_core_some_all ss cx.state st1 (cx.argvN ss.length) t h

/-- Witness for C10: a matching probe on a one-slot shape forces the required
extraction to return the same tuple and state. -/
theorem opt_match_implies_strict_witness :
    from_args [slotOkW] cxW = (1, Except.ok ((), PUnit.unit)) :=
  (opt_match_implies_strict [slotOkW] cxW 1 ((), PUnit.unit) rfl).2
    (fun s hs => by
      rw [List.mem_singleton] at hs
      subst hs
      exact ⟨fun _ => JsException.typeError "expected unit", fun st v => rfl⟩)

/-- Witness for C5: a mismatch against the number type throws a type-error
whose message is the carrier's display text. -/
theorem typeExpected_display_or_throw_witness :
    or_throw (Except.error TypeExpected.intro : Except (TypeExpected JsType.number) Int) =
      Except.error (JsException.typeError
        (TypeExpected.display (TypeExpected.intro : TypeExpected JsType.number))) :=
  (typeExpected_display_or_throw JsType.number).2.2 Int TypeExpected.intro

/-- Witness for C7: the number 5 survives the round trip. -/
theorem round_trip_witness :
    f64_try_from_js (f64_try_into_js 5) = Except.ok 5 :=
  (round_trip 5 "hi" true ⟨0⟩ ⟨[]⟩ ⟨[]⟩).1

/-- Witness for C9: the bare-type adapter on a mismatching slot agrees with
the one-tuple extraction. -/
theorem single_eq_one_tuple_witness :
    from_args_single slotMismatchW cxW =
      ((from_args [slotMismatchW] cxW).1,
        (from_args [slotMismatchW] cxW).2.map Prod.fst) :=
  (single_eq_one_tuple slotMismatchW cxW).1

end NeonExtract
